import Mathlib

/-!
Verification of the books CRUD microservices (Go + MongoDB).

The repository splits one "books" resource into per-verb HTTP services that
share a single MongoDB collection.  We embed the storage layer shallowly:
a BSON document is an association list of field names to values, a collection
is a list of documents in storage order, and the Mongo operations used by the
code (Find, FindOne, DeleteOne, UpdateOne with a set document, InsertOne) are
modelled with their single-document matching semantics, including the rule
that an equality filter on null matches documents lacking the field.

Each HTTP handler from the source is embedded as a pure function from the
collection (plus the decoded request payload, and where the driver generates
an ObjectID, the generated key) to the new collection, the HTTP status code,
and the response body.
-/

namespace BooksApp

/-- BSON values, as far as this program stores and compares them:
null, strings, integers, and ObjectIDs (modelled as natural numbers
below 16 to the 24th power, the range of a 12 byte ObjectID). -/
inductive BVal where
  | null : BVal
  | str : String → BVal
  | int : Int → BVal
  | oid : Nat → BVal
deriving DecidableEq, Repr

/-- A BSON document: ordered field list. -/
abbrev Doc := List (String × BVal)

/-- Value stored under a field name, if the field is present. -/
def docGet (d : Doc) (k : String) : Option BVal :=
  (d.find? (fun kv => kv.1 == k)).map (fun kv => kv.2)

/-- MongoDB equality-filter semantics for one filter pair: a null filter
value matches a document that lacks the field or stores null there; any
other value must be stored under the field verbatim. -/
def matchesPair (d : Doc) (kv : String × BVal) : Bool :=
  match kv.2 with
  | BVal.null =>
    match docGet d kv.1 with
    | none => true
    | some BVal.null => true
    | some _ => false
  | v => docGet d kv.1 == some v

/-- A document matches a filter when it matches every pair. -/
def matchesFilter (d : Doc) (f : List (String × BVal)) : Bool :=
  f.all (fun kv => matchesPair d kv)

/-- Collection.Find: every matching document, in storage order. -/
def findAll (coll : List Doc) (f : List (String × BVal)) : List Doc :=
  coll.filter (fun d => matchesFilter d f)

/-- Collection.FindOne: the first matching document. -/
def findOne (coll : List Doc) (f : List (String × BVal)) : Option Doc :=
  coll.find? (fun d => matchesFilter d f)

/-- Collection.DeleteOne: remove the first matching document, returning
the new collection and the deleted count. -/
def deleteOne : List Doc → List (String × BVal) → List Doc × Nat
  | [], _ => ([], 0)
  | d :: ds, f =>
    if matchesFilter d f then (ds, 1)
    else
      let r := deleteOne ds f
      (d :: r.1, r.2)

/-- Write one field: overwrite in place when present, else append
(MongoDB appends fields newly created by a set update). -/
def setField (d : Doc) (k : String) (v : BVal) : Doc :=
  if d.any (fun kv => kv.1 == k) then
    d.map (fun kv => if kv.1 == k then (kv.1, v) else kv)
  else d ++ [(k, v)]

/-- Apply a set-update document field by field. -/
def applySet (d : Doc) (s : List (String × BVal)) : Doc :=
  s.foldl (fun acc kv => setField acc kv.1 kv.2) d

/-- Collection.UpdateOne with a set document: update the first matching
document in place, returning the new collection and the matched count. -/
def updateOne : List Doc → List (String × BVal) → List (String × BVal) → List Doc × Nat
  | [], _, _ => ([], 0)
  | d :: ds, f, s =>
    if matchesFilter d f then (applySet d s :: ds, 1)
    else
      let r := updateOne ds f s
      (d :: r.1, r.2)

/-! ### ObjectID hexadecimal rendering and parsing

primitive.ObjectID is a 12 byte array; Hex renders exactly 24 lowercase
hexadecimal characters, and ObjectIDFromHex accepts exactly 24 hexadecimal
characters of either case. -/

/-- The k low hexadecimal digits of a natural number, most significant first. -/
def hexDigitsFixed : Nat → Nat → List Char
  | 0, _ => []
  | k + 1, n => hexDigitsFixed k (n / 16) ++ [Nat.digitChar (n % 16)]

/-- ObjectID.Hex: the 24 character lowercase hexadecimal display string. -/
def oidHex (n : Nat) : String := String.mk (hexDigitsFixed 24 n)

/-- Value of one hexadecimal character, either case. -/
def hexDigitVal (c : Char) : Option Nat :=
  if '0' ≤ c ∧ c ≤ '9' then some (c.toNat - 48)
  else if 'a' ≤ c ∧ c ≤ 'f' then some (c.toNat - 87)
  else if 'A' ≤ c ∧ c ≤ 'F' then some (c.toNat - 55)
  else none

/-- Accumulating hexadecimal parse of a character list. -/
def hexCharsToNat : List Char → Nat → Option Nat
  | [], acc => some acc
  | c :: cs, acc =>
    match hexDigitVal c with
    | none => none
    | some v => hexCharsToNat cs (16 * acc + v)

/-- primitive.ObjectIDFromHex: parse a 24 character hexadecimal string;
any other input is an error, modelled as none. -/
def oidFromHex (s : String) : Option Nat :=
  if s.length == 24 then hexCharsToNat s.data 0 else none

/-! ### The data model of the services -/

/-- The BookStore struct shared by every service.  Marshalled to BSON, its
field names are lowercased by the driver and a zero ID is omitted. -/
structure BookStore where
  ID : Nat
  BookName : String
  BookAuthor : String
  BookISBN : String
  BookPages : Int
  BookYear : Int
deriving DecidableEq, Repr

/-- Marshalling of a BookStore with a driver-assigned ObjectID: the _id
first, then the five fields under their lowercased names in struct order. -/
def bookToDoc (id : Nat) (name author isbn : String) (pages year : Int) : Doc :=
  [("_id", BVal.oid id), ("bookname", BVal.str name), ("bookauthor", BVal.str author),
   ("bookisbn", BVal.str isbn), ("bookpages", BVal.int pages), ("bookyear", BVal.int year)]

/-- Driver decoding of one document element into a BookStore: only the
exact lowercased field names are recognised (the decoder is case
sensitive); unknown fields are skipped. -/
def decodeField : BookStore → String × BVal → BookStore
  | ⟨i, nm, au, isb, pg, yr⟩, kv =>
    match kv with
    | ("_id", BVal.oid o) => ⟨o, nm, au, isb, pg, yr⟩
    | ("bookname", BVal.str s) => ⟨i, s, au, isb, pg, yr⟩
    | ("bookauthor", BVal.str s) => ⟨i, nm, s, isb, pg, yr⟩
    | ("bookisbn", BVal.str s) => ⟨i, nm, au, s, pg, yr⟩
    | ("bookpages", BVal.int m) => ⟨i, nm, au, isb, m, yr⟩
    | ("bookyear", BVal.int m) => ⟨i, nm, au, isb, pg, m⟩
    | _ => ⟨i, nm, au, isb, pg, yr⟩

/-- Driver decoding of a whole document into a BookStore. -/
def decodeBook (d : Doc) : BookStore := d.foldl decodeField ⟨0, "", "", "", 0, 0⟩

/-- The JSON response shape id, name, author, pages, year, isbn. -/
structure BookDTO where
  Id : String
  Name : String
  Author : String
  Pages : Int
  Year : Int
  Isbn : String
deriving DecidableEq, Repr

/-- The JSON request shape of the create endpoint. -/
structure PostBookDTO where
  Name : String
  Author : String
  Pages : Int
  Year : Int
  Isbn : String
deriving DecidableEq, Repr

/-- The intermediate projection built by findAllBooks: each record decoded
and its ObjectID rendered as the hexadecimal display string. -/
structure BookView where
  IDHex : String
  BookName : String
  BookAuthor : String
  BookISBN : String
  BookPages : Int
  BookYear : Int
deriving DecidableEq, Repr

/-- findAllBooks: fetch every record, decode, and project with the
identifier rendered as a display string. -/
def findAllBooks (coll : List Doc) : List BookView :=
  (coll.map decodeBook).map (fun r =>
    ⟨oidHex r.ID, r.BookName, r.BookAuthor, r.BookISBN, r.BookPages, r.BookYear⟩)

/-! ### The HTTP handlers -/

/-- The GET handler on the books route: lists every record as a BookDTO;
returns the (unchanged) collection, the status code and the payload. -/
def getBooksHandler (coll : List Doc) : List Doc × Nat × List BookDTO :=
  (coll, 200, (findAllBooks coll).map (fun b =>
    ⟨b.IDHex, b.BookName, b.BookAuthor, b.BookPages, b.BookYear, b.BookISBN⟩))

/-- Direct per-record projection: the decoded record with its identifier
rendered as the hexadecimal display string together with its name, author,
page count, year and ISBN. -/
def dtoOfDoc (d : Doc) : BookDTO :=
  ⟨oidHex (decodeBook d).ID, (decodeBook d).BookName, (decodeBook d).BookAuthor,
   (decodeBook d).BookPages, (decodeBook d).BookYear, (decodeBook d).BookISBN⟩

/-- Responses of the create endpoint: a plain message, the echoed request
payload, or the created record with its assigned identifier. -/
inductive PostResult where
  | msg : String → PostResult
  | echo : PostBookDTO → PostResult
  | created : BookDTO → PostResult
deriving DecidableEq, Repr

/-- The existence filter of the create handler: only the supplied fields
that are non-empty strings or non-zero integers. -/
def postFilter (b : PostBookDTO) : List (String × BVal) :=
  (if b.Name ≠ "" then [("bookname", BVal.str b.Name)] else []) ++
  (if b.Author ≠ "" then [("bookauthor", BVal.str b.Author)] else []) ++
  (if b.Pages ≠ 0 then [("bookpages", BVal.int b.Pages)] else []) ++
  (if b.Year ≠ 0 then [("bookyear", BVal.int b.Year)] else []) ++
  (if b.Isbn ≠ "" then [("bookisbn", BVal.str b.Isbn)] else [])

/-- The POST handler: none models a bind failure; insertOk models whether
the insert call succeeds; newId is the ObjectID the driver generates. -/
def postBooksHandler (coll : List Doc) (input : Option PostBookDTO)
    (insertOk : Bool) (newId : Nat) : List Doc × Nat × PostResult :=
  match input with
  | none => (coll, 304, PostResult.msg "error in payload conversion ")
  | some book =>
    match findOne coll (postFilter book) with
    | some _ => (coll, 304, PostResult.echo book)
    | none =>
      if insertOk then
        (coll ++ [bookToDoc newId book.Name book.Author book.Isbn book.Pages book.Year],
         200,
         PostResult.created ⟨oidHex newId, book.Name, book.Author, book.Pages, book.Year, book.Isbn⟩)
      else (coll, 304, PostResult.msg "invalid on insertion")

/-- The set document of the PUT handler, with the field names exactly as
written in the source: the capitalised Go struct field names, not the
lowercased keys the documents were stored under. -/
def putSetFields (b : BookDTO) : List (String × BVal) :=
  [("BookName", BVal.str b.Name), ("BookAuthor", BVal.str b.Author),
   ("BookPages", BVal.int b.Pages), ("BookYear", BVal.int b.Year),
   ("BookISBN", BVal.str b.Isbn)]

/-- The PUT handler: none models a bind failure (the handler returns the
bind error); otherwise the identifier is parsed, a parse error is
discarded and the zero ObjectID used, and the payload is echoed with a
success status regardless of the update outcome. -/
def putBooksHandler (coll : List Doc) (input : Option BookDTO) :
    List Doc × Nat × Option BookDTO :=
  match input with
  | none => (coll, 400, none)
  | some dto =>
    let key := (oidFromHex dto.Id).getD 0
    let r := updateOne coll [("_id", BVal.oid key)] (putSetFields dto)
    (r.1, 200, some dto)

/-- The DELETE handler: parse error on the identifier is discarded; first
delete by a field literally named id, then, when nothing was deleted, by a
field named by the identifier with no value (which marshals as null);
success is reported either way (storage errors assumed absent). -/
def deleteBooksHandler (coll : List Doc) (id : String) : List Doc × Nat × String :=
  let r1 := deleteOne coll [("id", BVal.str id)]
  if r1.2 == 0 then
    let r2 := deleteOne r1.1 [(id, BVal.null)]
    (r2.1, 200, "Book deleted successfully")
  else
    (r1.1, 200, "Book deleted successfully")

/-! ### Startup bootstrap -/

/-- One seed record as written in a startData literal (no identifier). -/
structure SeedBook where
  name : String
  author : String
  isbn : String
  pages : Int
  year : Int
deriving DecidableEq, Repr

/-- Marshalling of a seed BookStore used as a Find filter: the zero
ObjectID is omitted, the five fields are present under lowercased names. -/
def seedFilter (s : SeedBook) : List (String × BVal) :=
  [("bookname", BVal.str s.name), ("bookauthor", BVal.str s.author),
   ("bookisbn", BVal.str s.isbn), ("bookpages", BVal.int s.pages),
   ("bookyear", BVal.int s.year)]

/-- The document inserted for a seed record, with the generated ObjectID. -/
def seedDoc (id : Nat) (s : SeedBook) : Doc :=
  bookToDoc id s.name s.author s.isbn s.pages s.year

/-- The Vortex seed as written in the frontend and delete services. -/
def vortexF : SeedBook :=
  ⟨"The Vortex", "José Eustasio Rivera", "958-30-0804-4", 292, 1924⟩

/-- The Vortex seed as written in the post service: the author string is
encoded differently (mojibake of the accented character). -/
def vortexP : SeedBook :=
  ⟨"The Vortex", "JosÃ© Eustasio Rivera", "958-30-0804-4", 292, 1924⟩

/-- The Frankenstein seed (identical in every service). -/
def frankenstein : SeedBook :=
  ⟨"Frankenstein", "Mary Shelley", "978-3-649-64609-9", 280, 1818⟩

/-- The Black Cat seed (identical in every service). -/
def blackCat : SeedBook :=
  ⟨"The Black Cat", "Edgar Allan Poe", "978-3-99168-238-7", 280, 1843⟩

/-- startData of the frontend and delete services. -/
def startDataFrontend : List SeedBook := [vortexF, frankenstein, blackCat]

/-- startData of the post service. -/
def startDataPost : List SeedBook := [vortexP, frankenstein, blackCat]

/-- One iteration of the prepareData loop: probe the seed by exact-field
match; more than one match is an unrecoverable error (none); no match
inserts the seed with the next generated identifier; one match skips.
The state carries the collection and the identifier supply. -/
def prepStep (s : SeedBook) (coll : List Doc) (n : Nat) : Option (List Doc × Nat) :=
  let results := findAll coll (seedFilter s)
  if results.length > 1 then none
  else if results.length == 0 then some (coll ++ [seedDoc n s], n + 1)
  else some (coll, n)

/-- prepareData: run the seed loop over the startData list. -/
def prepareData : List SeedBook → List Doc × Nat → Option (List Doc × Nat)
  | [], st => some st
  | s :: rest, st => (prepStep s st.1 st.2).bind (prepareData rest)

/-- Iterated service restarts: run the bootstrap k times. -/
def bootstrapIter (seeds : List SeedBook) : Nat → List Doc × Nat → Option (List Doc × Nat)
  | 0, st => some st
  | k + 1, st => (prepareData seeds st).bind (bootstrapIter seeds k)

/-- Number of stored documents exactly matching a seed record. -/
def seedCount (s : SeedBook) (coll : List Doc) : Nat :=
  (findAll coll (seedFilter s)).length

/-- A document with name The Vortex and year 1924. -/
def vortexMatchB (d : Doc) : Bool :=
  docGet d "bookname" == some (BVal.str "The Vortex") &&
  docGet d "bookyear" == some (BVal.int 1924)

/-- Number of stored documents with name The Vortex and year 1924. -/
def vortexCount (coll : List Doc) : Nat := coll.countP vortexMatchB

/-! ### Reachable document shapes -/

/-- Field names a document of this system can carry: the marshalled
lowercased BookStore fields plus the capitalised field names the PUT
handler writes. -/
def allowedKeys : List String :=
  ["_id", "bookname", "bookauthor", "bookisbn", "bookpages", "bookyear",
   "BookName", "BookAuthor", "BookPages", "BookYear", "BookISBN"]

/-- A document whose every field name is one the system writes. -/
def WFDoc (d : Doc) : Prop := ∀ kv ∈ d, kv.1 ∈ allowedKeys

instance (d : Doc) : Decidable (WFDoc d) :=
  inferInstanceAs (Decidable (∀ kv ∈ d, kv.1 ∈ allowedKeys))

/-- Removal of the first document lacking (or storing null under) the
given field name; identity when every document carries the field.  This
is the selection the fallback delete performs: it depends only on field
presence, never on the primary key value. -/
def removeFirstLacking (id : String) : List Doc → List Doc
  | [] => []
  | d :: ds =>
    match docGet d id with
    | none => ds
    | some BVal.null => ds
    | some _ => d :: removeFirstLacking id ds

/-! ## General lemmas about the embedded operations -/

lemma deleteOne_of_no_match (coll : List Doc) (f : List (String × BVal))
    (h : ∀ d ∈ coll, matchesFilter d f = false) :
    deleteOne coll f = (coll, 0) := by
  induction coll with
  | nil => rfl
  | cons d ds ih =>
    have ih2 := ih (fun x hx => h x (by simp [hx]))
    simp [deleteOne, h d (by simp), ih2]

lemma updateOne_of_no_match (coll : List Doc) (f s : List (String × BVal))
    (h : ∀ d ∈ coll, matchesFilter d f = false) :
    updateOne coll f s = (coll, 0) := by
  induction coll with
  | nil => rfl
  | cons d ds ih =>
    have ih2 := ih (fun x hx => h x (by simp [hx]))
    simp [updateOne, h d (by simp), ih2]

lemma docGet_id_of_wf (d : Doc) (h : WFDoc d) : docGet d "id" = none := by
  unfold docGet
  cases hf : d.find? (fun kv => kv.1 == "id") with
  | none => rfl
  | some kv =>
    have hk : kv.1 = "id" := by simpa using List.find?_some hf
    have := h kv (List.mem_of_find?_eq_some hf)
    rw [hk] at this
    exact absurd this (by decide)

lemma first_delete_attempt_zero (id : String) (coll : List Doc)
    (hwf : ∀ d ∈ coll, WFDoc d) :
    deleteOne coll [("id", BVal.str id)] = (coll, 0) := by
  apply deleteOne_of_no_match
  intro d hd
  simp [matchesFilter, matchesPair, docGet_id_of_wf d (hwf d hd)]

lemma deleteOne_null_fst (id : String) (coll : List Doc) :
    (deleteOne coll [(id, BVal.null)]).1 = removeFirstLacking id coll := by
  induction coll with
  | nil => rfl
  | cons d ds ih =>
    simp only [deleteOne, removeFirstLacking, matchesFilter, List.all_cons, List.all_nil,
      Bool.and_true, matchesPair]
    cases hg : docGet d id with
    | none => simp [hg]
    | some v => cases v <;> simp [hg, ih]

/-! ## Lemmas about the hexadecimal rendering of ObjectIDs -/

lemma hexDigitVal_digitChar (d : Nat) (h : d < 16) :
    hexDigitVal (Nat.digitChar d) = some d := by
  interval_cases d <;> decide

lemma hexDigitsFixed_length (k : Nat) : ∀ n, (hexDigitsFixed k n).length = k := by
  induction k with
  | zero => intro n; rfl
  | succ k ih => intro n; simp [hexDigitsFixed, ih]

lemma hexCharsToNat_append (xs ys : List Char) : ∀ acc : Nat,
    hexCharsToNat (xs ++ ys) acc =
      (hexCharsToNat xs acc).bind (fun a => hexCharsToNat ys a) := by
  induction xs with
  | nil => intro acc; rfl
  | cons c cs ih =>
    intro acc
    cases h : hexDigitVal c with
    | none => simp [hexCharsToNat, h]
    | some v => simp [hexCharsToNat, h, ih]

lemma hexCharsToNat_hexDigitsFixed (k : Nat) : ∀ n acc : Nat,
    hexCharsToNat (hexDigitsFixed k n) acc = some (acc * 16 ^ k + n % 16 ^ k) := by
  induction k with
  | zero => intro n acc; simp [hexDigitsFixed, hexCharsToNat, Nat.mod_one]
  | succ k ih =>
    intro n acc
    rw [hexDigitsFixed, hexCharsToNat_append, ih]
    have hd : n % 16 < 16 := Nat.mod_lt _ (by norm_num)
    simp only [Option.some_bind, hexCharsToNat, hexDigitVal_digitChar (n % 16) hd]
    have hm : n % (16 * 16 ^ k) = n % 16 + 16 * (n / 16 % 16 ^ k) := Nat.mod_mul
    have hp : (16 : Nat) ^ (k + 1) = 16 * 16 ^ k := by ring
    rw [hp, hm]
    congr 1
    ring

lemma oidFromHex_oidHex (n : Nat) : oidFromHex (oidHex n) = some (n % 16 ^ 24) := by
  unfold oidFromHex oidHex
  have hlen : (String.mk (hexDigitsFixed 24 n)).length = 24 := by
    simp [String.length, hexDigitsFixed_length]
  rw [hlen]
  simpa using hexCharsToNat_hexDigitsFixed 24 n 0

lemma oidHex_inj (a b : Nat) (ha : a < 16 ^ 24) (hb : b < 16 ^ 24)
    (h : oidHex a = oidHex b) : a = b := by
  have h1 := oidFromHex_oidHex a
  rw [h, oidFromHex_oidHex b] at h1
  simp only [Option.some.injEq] at h1
  rw [Nat.mod_eq_of_lt hb, Nat.mod_eq_of_lt ha] at h1
  exact h1.symm

lemma oidHex_length (n : Nat) : (oidHex n).length = 24 := by
  simp [oidHex, String.length, hexDigitsFixed_length]

lemma oidHex_ne_empty (n : Nat) : oidHex n ≠ "" := by
  intro h
  have := oidHex_length n
  rw [h] at this
  simp at this

/-! ## Lemmas about the bootstrap seed probing -/

lemma docGet_seedDoc_bookname (id : Nat) (s : SeedBook) :
    docGet (seedDoc id s) "bookname" = some (BVal.str s.name) := rfl

lemma seedDoc_matches_self (id : Nat) (s : SeedBook) :
    matchesFilter (seedDoc id s) (seedFilter s) = true := by
  obtain ⟨nm, au, isb, pg, yr⟩ := s
  simp [seedDoc, bookToDoc, seedFilter, matchesFilter, matchesPair, docGet, List.find?]

lemma seedDoc_no_match_of_name_ne (id : Nat) (s t : SeedBook) (h : s.name ≠ t.name) :
    matchesFilter (seedDoc id s) (seedFilter t) = false := by
  have h1 : matchesPair (seedDoc id s) ("bookname", BVal.str t.name) = false := by
    simp [matchesPair, docGet_seedDoc_bookname, h]
  simp [seedFilter, matchesFilter, h1]

lemma seedCount_append_one (s : SeedBook) (coll : List Doc) (d : Doc) :
    seedCount s (coll ++ [d]) =
      seedCount s coll + (if matchesFilter d (seedFilter s) then 1 else 0) := by
  simp only [seedCount, findAll, List.filter_append, List.length_append]
  congr 1
  cases h : matchesFilter d (seedFilter s) <;> simp [List.filter, h]

lemma prepStep_insert (s : SeedBook) (coll : List Doc) (n : Nat)
    (h : seedCount s coll = 0) :
    prepStep s coll n = some (coll ++ [seedDoc n s], n + 1) := by
  rw [seedCount] at h
  simp only [prepStep]
  rw [h]
  norm_num

lemma prepStep_skip (s : SeedBook) (coll : List Doc) (n : Nat)
    (h : seedCount s coll = 1) :
    prepStep s coll n = some (coll, n) := by
  rw [seedCount] at h
  simp only [prepStep]
  rw [h]
  norm_num

lemma prepareData_fixpoint (S : List SeedBook) : ∀ coll n,
    (∀ s ∈ S, seedCount s coll = 1) →
    prepareData S (coll, n) = some (coll, n) := by
  induction S with
  | nil => intro coll n _; rfl
  | cons s rest ih =>
    intro coll n h
    rw [prepareData, prepStep_skip s coll n (h s (by simp)), Option.some_bind]
    exact ih coll n (fun t ht => h t (by simp [ht]))

lemma prepareData_run1 (S : List SeedBook)
    (hpw : S.Pairwise (fun a b => a.name ≠ b.name)) : ∀ coll n,
    (∀ s ∈ S, seedCount s coll ≤ 1) →
    ∃ coll2 n2,
      prepareData S (coll, n) = some (coll2, n2) ∧
      (∀ s ∈ S, seedCount s coll2 = 1) ∧
      (∀ t : SeedBook, (∀ s ∈ S, s.name ≠ t.name) → seedCount t coll2 = seedCount t coll) ∧
      coll2.length = coll.length + S.countP (fun s => seedCount s coll == 0) ∧
      (∀ d ∈ coll2, d ∈ coll ∨ ∃ s ∈ S, ∃ id, d = seedDoc id s) := by
  induction S with
  | nil =>
    intro coll n _
    exact ⟨coll, n, rfl, by simp, fun t _ => rfl, by simp, fun d hd => Or.inl hd⟩
  | cons s rest ih =>
    intro coll n h
    have hpc := List.pairwise_cons.mp hpw
    have hs_ne : ∀ t ∈ rest, s.name ≠ t.name := hpc.1
    have ihr := ih hpc.2
    have hs1 : seedCount s coll ≤ 1 := h s (by simp)
    rcases Nat.le_one_iff_eq_zero_or_eq_one.mp hs1 with h0 | h1
    · have hstep := prepStep_insert s coll n h0
      set coll1 := coll ++ [seedDoc n s] with hc1def
      have hc1 : ∀ t ∈ rest, seedCount t coll1 = seedCount t coll := by
        intro t ht
        rw [hc1def, seedCount_append_one, seedDoc_no_match_of_name_ne n s t (hs_ne t ht)]
        simp
      have hcs : seedCount s coll1 = 1 := by
        rw [hc1def, seedCount_append_one, seedDoc_matches_self]
        simp [h0]
      obtain ⟨coll2, n2, hrun, hone, hframe, hlen, hmem⟩ :=
        ihr coll1 (n + 1) (fun t ht => by rw [hc1 t ht]; exact h t (by simp [ht]))
      refine ⟨coll2, n2, ?_, ?_, ?_, ?_, ?_⟩
      · rw [prepareData, hstep, Option.some_bind]
        exact hrun
      · intro t ht
        rcases List.mem_cons.mp ht with rfl | htr
        · rw [hframe t (fun u hu => (hs_ne u hu).symm)]
          exact hcs
        · exact hone t htr
      · intro t htn
        rw [hframe t (fun u hu => htn u (List.mem_cons_of_mem s hu)), hc1def,
          seedCount_append_one, seedDoc_no_match_of_name_ne n s t (htn s (by simp))]
        simp
      · rw [hlen]
        have hcong : rest.countP (fun t => seedCount t coll1 == 0) =
            rest.countP (fun t => seedCount t coll == 0) := by
          apply List.countP_congr
          intro t ht
          rw [hc1 t ht]
        rw [hcong, hc1def]
        simp [List.countP_cons, h0]
        omega
      · intro d hd
        rcases hmem d hd with hd1 | ⟨t, ht, idt, rfl⟩
        · rcases List.mem_append.mp hd1 with hx | hx
          · exact Or.inl hx
          · simp at hx
            exact Or.inr ⟨s, by simp, n, hx⟩
        · exact Or.inr ⟨t, by simp [ht], idt, rfl⟩
    · have hstep := prepStep_skip s coll n h1
      obtain ⟨coll2, n2, hrun, hone, hframe, hlen, hmem⟩ :=
        ihr coll n (fun t ht => h t (by simp [ht]))
      refine ⟨coll2, n2, ?_, ?_, ?_, ?_, ?_⟩
      · rw [prepareData, hstep, Option.some_bind]
        exact hrun
      · intro t ht
        rcases List.mem_cons.mp ht with rfl | htr
        · rw [hframe t (fun u hu => (hs_ne u hu).symm)]
          exact h1
        · exact hone t htr
      · intro t htn
        exact hframe t (fun u hu => htn u (List.mem_cons_of_mem s hu))
      · rw [hlen]
        simp [List.countP_cons, h1]
      · intro d hd
        rcases hmem d hd with hd1 | ⟨t, ht, idt, rfl⟩
        · exact Or.inl hd1
        · exact Or.inr ⟨t, by simp [ht], idt, rfl⟩

/-! ## The claims -/

/-- C1 counterexample: the claim that the DELETE handler removes no record
whose primary key equals the identifier is false.  With a single stored
record of primary key 5 and the identifier equal to its 24 character
hexadecimal rendering, the fallback delete removes exactly that record
(because the hexadecimal string is not a field name of the document), and
the handler reports success. -/
theorem delete_removes_record_with_matching_key :
    oidFromHex (oidHex 5) = some 5 ∧
    deleteBooksHandler
      [bookToDoc 5 "The Vortex" "José Eustasio Rivera" "958-30-0804-4" 292 1924]
      (oidHex 5) = ([], 200, "Book deleted successfully") := by decide

/-- C1 (amended): for every identifier string and every collection of
system-written documents, assuming no storage errors, the DELETE handler
never selects a record by primary-key comparison: the first delete attempt
(a field literally named id) removes nothing, the final collection is
obtained by removing the first record lacking a field named by the
identifier (a selection by field presence and position, not by key), and
the handler returns a success status. -/
theorem delete_never_targets_primary_key (id : String) (coll : List Doc)
    (hwf : ∀ d ∈ coll, WFDoc d) :
    deleteOne coll [("id", BVal.str id)] = (coll, 0) ∧
    deleteBooksHandler coll id =
      (removeFirstLacking id coll, 200, "Book deleted successfully") := by
  have h1 := first_delete_attempt_zero id coll hwf
  refine ⟨h1, ?_⟩
  simp [deleteBooksHandler, h1, deleteOne_null_fst]

/-- Witness for C1 at a concrete record and identifier. -/
theorem delete_never_targets_primary_key_witness :
    deleteOne [bookToDoc 2 "A" "B" "C" 1 2] [("id", BVal.str "qqq")] =
      ([bookToDoc 2 "A" "B" "C" 1 2], 0) ∧
    deleteBooksHandler [bookToDoc 2 "A" "B" "C" 1 2] "qqq" =
      (removeFirstLacking "qqq" [bookToDoc 2 "A" "B" "C" 1 2], 200,
        "Book deleted successfully") :=
  delete_never_targets_primary_key "qqq" [bookToDoc 2 "A" "B" "C" 1 2] (by decide)

/-- C2: for every identifier that is not the name of a field present on
any stored document, the first delete attempt (field literally named id)
removes zero documents, and on a non-empty collection the fallback delete
with filter mapping the identifier to null removes exactly one document,
the first in storage order, regardless of any primary key values. -/
theorem delete_fallback_removes_first_doc (id : String) (coll : List Doc)
    (hwf : ∀ d ∈ coll, WFDoc d)
    (hid : ∀ d ∈ coll, docGet d id = none)
    (hne : coll ≠ []) :
    deleteOne coll [("id", BVal.str id)] = (coll, 0) ∧
    deleteOne coll [(id, BVal.null)] = (coll.tail, 1) ∧
    deleteBooksHandler coll id = (coll.tail, 200, "Book deleted successfully") := by
  obtain ⟨d, ds, rfl⟩ := List.exists_cons_of_ne_nil hne
  have h1 := first_delete_attempt_zero id (d :: ds) hwf
  have hmatch : matchesFilter d [(id, BVal.null)] = true := by
    simp [matchesFilter, matchesPair, hid d (by simp)]
  have h2 : deleteOne (d :: ds) [(id, BVal.null)] = (ds, 1) := by
    simp [deleteOne, hmatch]
  exact ⟨h1, by simpa using h2, by simp [deleteBooksHandler, h1, h2]⟩

/-- Witness for C2 on a one-record collection and a fresh identifier. -/
theorem delete_fallback_removes_first_doc_witness :
    deleteOne [bookToDoc 3 "N" "A" "I" 7 8] [("zzz", BVal.null)] =
      (([bookToDoc 3 "N" "A" "I" 7 8] : List Doc).tail, 1) ∧
    deleteBooksHandler [bookToDoc 3 "N" "A" "I" 7 8] "zzz" =
      (([bookToDoc 3 "N" "A" "I" 7 8] : List Doc).tail, 200,
        "Book deleted successfully") :=
  ⟨(delete_fallback_removes_first_doc "zzz" [bookToDoc 3 "N" "A" "I" 7 8]
      (by decide) (by decide) (by decide)).2.1,
   (delete_fallback_removes_first_doc "zzz" [bookToDoc 3 "N" "A" "I" 7 8]
      (by decide) (by decide) (by decide)).2.2⟩

/-- C3 (code bug): a PUT with a valid identifier of a stored record and new
field values is accepted with a success status and its update matches the
record, yet a subsequent GET still returns the old field values: the set
document is written under the capitalised Go struct field names while the
stored and decoded fields use the lowercased keys, so the update never
touches what GET reads. -/
theorem put_then_get_returns_stale_values :
    (updateOne [bookToDoc 7 "Old Name" "Old Author" "111" 10 2000]
      [("_id", BVal.oid 7)]
      (putSetFields ⟨oidHex 7, "New Name", "New Author", 11, 2001, "222"⟩)).2 = 1 ∧
    (putBooksHandler [bookToDoc 7 "Old Name" "Old Author" "111" 10 2000]
      (some ⟨oidHex 7, "New Name", "New Author", 11, 2001, "222"⟩)).2.1 = 200 ∧
    (getBooksHandler (putBooksHandler [bookToDoc 7 "Old Name" "Old Author" "111" 10 2000]
      (some ⟨oidHex 7, "New Name", "New Author", 11, 2001, "222"⟩)).1).2.2 =
      [⟨oidHex 7, "Old Name", "Old Author", 10, 2000, "111"⟩] := by decide

/-- C4: a POST whose non-empty and non-zero fields all match some existing
record performs no insert, leaves the collection unchanged, and returns the
submitted payload with the not-modified status; moreover the lookup filter
contains exactly the supplied fields that are non-empty strings or
non-zero integers. -/
theorem post_duplicate_is_noop (coll : List Doc) (book : PostBookDTO)
    (insertOk : Bool) (newId : Nat)
    (hdup : ∃ d ∈ coll, matchesFilter d (postFilter book) = true) :
    postBooksHandler coll (some book) insertOk newId = (coll, 304, PostResult.echo book) ∧
    (∀ kv, kv ∈ postFilter book ↔
      (kv = ("bookname", BVal.str book.Name) ∧ book.Name ≠ "") ∨
      (kv = ("bookauthor", BVal.str book.Author) ∧ book.Author ≠ "") ∨
      (kv = ("bookpages", BVal.int book.Pages) ∧ book.Pages ≠ 0) ∨
      (kv = ("bookyear", BVal.int book.Year) ∧ book.Year ≠ 0) ∨
      (kv = ("bookisbn", BVal.str book.Isbn) ∧ book.Isbn ≠ "")) := by
  constructor
  · have hsome : (findOne coll (postFilter book)).isSome := by
      unfold findOne
      rw [List.find?_isSome]
      obtain ⟨d, hd, hm⟩ := hdup
      exact ⟨d, hd, hm⟩
    obtain ⟨x, hx⟩ := Option.isSome_iff_exists.mp hsome
    simp [postBooksHandler, hx]
  · intro kv
    unfold postFilter
    split_ifs with h1 h2 h3 h4 h5 <;> simp_all

/-- Witness for C4: the (sole) record has exactly the submitted fields. -/
theorem post_duplicate_is_noop_witness :
    postBooksHandler [bookToDoc 1 "N" "A" "I" 5 6] (some ⟨"N", "A", 5, 6, "I"⟩) true 42 =
      ([bookToDoc 1 "N" "A" "I" 5 6], 304, PostResult.echo ⟨"N", "A", 5, 6, "I"⟩) :=
  (post_duplicate_is_noop [bookToDoc 1 "N" "A" "I" 5 6] ⟨"N", "A", 5, 6, "I"⟩ true 42
    ⟨bookToDoc 1 "N" "A" "I" 5 6, by decide, by decide⟩).1

/-- C5: a POST whose non-empty and non-zero field combination matches no
existing record, when the insert succeeds and the driver generates a fresh
ObjectID, appends exactly one new record and returns the submitted fields
with the newly assigned identifier, which is non-empty and distinct from
the rendering of every existing identifier, with a success status. -/
theorem post_novel_inserts_one (coll : List Doc) (book : PostBookDTO) (newId : Nat)
    (hnew : ∀ d ∈ coll, matchesFilter d (postFilter book) = false)
    (hfresh : ∀ d ∈ coll, docGet d "_id" ≠ some (BVal.oid newId))
    (hbound : newId < 16 ^ 24)
    (hbounds : ∀ d ∈ coll, ∀ m, docGet d "_id" = some (BVal.oid m) → m < 16 ^ 24) :
    postBooksHandler coll (some book) true newId =
      (coll ++ [bookToDoc newId book.Name book.Author book.Isbn book.Pages book.Year], 200,
        PostResult.created
          ⟨oidHex newId, book.Name, book.Author, book.Pages, book.Year, book.Isbn⟩) ∧
    oidHex newId ≠ "" ∧
    (∀ d ∈ coll, ∀ m, docGet d "_id" = some (BVal.oid m) → oidHex newId ≠ oidHex m) := by
  have hfo : findOne coll (postFilter book) = none := by
    unfold findOne
    rw [List.find?_eq_none]
    intro d hd
    simp [hnew d hd]
  refine ⟨by simp [postBooksHandler, hfo], oidHex_ne_empty newId, ?_⟩
  intro d hd m hm heq
  have hmeq : newId = m := oidHex_inj newId m hbound (hbounds d hd m hm) heq
  exact hfresh d hd (hmeq ▸ hm)

/-- Witness for C5: inserting into the empty collection. -/
theorem post_novel_inserts_one_witness :
    postBooksHandler [] (some ⟨"X", "Y", 1, 2, "Z"⟩) true 3 =
      ([bookToDoc 3 "X" "Y" "Z" 1 2], 200,
        PostResult.created ⟨oidHex 3, "X", "Y", 1, 2, "Z"⟩) ∧
    oidHex 3 ≠ "" :=
  ⟨(post_novel_inserts_one [] ⟨"X", "Y", 1, 2, "Z"⟩ 3 (by simp) (by simp) (by norm_num)
      (by simp)).1,
   (post_novel_inserts_one [] ⟨"X", "Y", 1, 2, "Z"⟩ 3 (by simp) (by simp) (by norm_num)
      (by simp)).2.1⟩

/-- C6 counterexample: bootstrapping twice over a collection that already
holds one non-seed record leaves four records, not exactly the three seed
records, so the claim does not hold for every collection state. -/
theorem bootstrap_twice_count_not_three :
    ((prepareData startDataPost ([bookToDoc 99 "Other Book" "Nobody" "000" 1 2], 0)).bind
      (fun st => prepareData startDataPost st)).map (fun st => st.1.length) = some 4 := by
  decide

/-- C6 (amended): over every collection state in which each seed record
has at most one exact-field match, running the bootstrap twice never
fatal-errors, the second run changes nothing, every seed record ends with
exactly one exact match (never duplicated), the first run inserts exactly
the missing seeds, and starting from the empty collection the result holds
exactly the three seed records. -/
theorem bootstrap_twice_idempotent (coll : List Doc) (n : Nat)
    (h : ∀ s ∈ startDataPost, seedCount s coll ≤ 1) :
    ∃ coll2 n2,
      prepareData startDataPost (coll, n) = some (coll2, n2) ∧
      prepareData startDataPost (coll2, n2) = some (coll2, n2) ∧
      (∀ s ∈ startDataPost, seedCount s coll2 = 1) ∧
      coll2.length = coll.length + startDataPost.countP (fun s => seedCount s coll == 0) ∧
      (coll = [] → coll2.length = 3) := by
  have hpw : startDataPost.Pairwise (fun a b => a.name ≠ b.name) := by decide
  obtain ⟨coll2, n2, hrun, hone, hframe, hlen, hmem⟩ := prepareData_run1 _ hpw coll n h
  refine ⟨coll2, n2, hrun, prepareData_fixpoint _ coll2 n2 hone, hone, hlen, ?_⟩
  rintro rfl
  rw [hlen]
  decide

/-- Witness for C6: bootstrapping twice from the empty collection. -/
theorem bootstrap_twice_idempotent_witness :
    (∀ s ∈ startDataPost, seedCount s ([] : List Doc) ≤ 1) ∧
    (∃ coll2 n2,
      prepareData startDataPost ([], 1) = some (coll2, n2) ∧
      prepareData startDataPost (coll2, n2) = some (coll2, n2) ∧
      (∀ s ∈ startDataPost, seedCount s coll2 = 1) ∧
      coll2.length = ([] : List Doc).length +
        startDataPost.countP (fun s => seedCount s ([] : List Doc) == 0) ∧
      (([] : List Doc) = [] → coll2.length = 3)) :=
  ⟨by decide, bootstrap_twice_idempotent [] 1 (by decide)⟩

/-- C7 counterexample: one bootstrap run of the post service followed by
one run of the frontend service, from the empty collection, leaves two
records with name The Vortex and year 1924, because the two services
encode the author string of that seed differently and the exact-field
probe therefore fails to see the record the other service inserted. -/
theorem vortex_seed_duplicated_across_services :
    ((prepareData startDataPost ([], 0)).bind
      (fun st => prepareData startDataFrontend st)).map
      (fun st => vortexCount st.1) = some 2 := by decide

/-- C7 (amended): for every number of restarts between one and ten of
services sharing the frontend seed literals, bootstrapping that many times
from the empty collection succeeds and leaves exactly one record with name
The Vortex and year 1924. -/
theorem vortex_seed_unique_same_service (k n : Nat) (hk1 : 1 ≤ k) (hk10 : k ≤ 10) :
    ∃ coll2 n2, bootstrapIter startDataFrontend k ([], n) = some (coll2, n2) ∧
      vortexCount coll2 = 1 := by
  obtain ⟨j, rfl⟩ : ∃ j, k = j + 1 := ⟨k - 1, by omega⟩
  have hpw : startDataFrontend.Pairwise (fun a b => a.name ≠ b.name) := by decide
  have h0 : ∀ s ∈ startDataFrontend, seedCount s ([] : List Doc) ≤ 1 := by
    intro s _
    simp [seedCount, findAll]
  obtain ⟨coll1, n1, hrun, hone, hframe, hlen, hmem⟩ := prepareData_run1 _ hpw [] n h0
  have hfix : ∀ (j2 m : Nat), bootstrapIter startDataFrontend j2 (coll1, m) = some (coll1, m) := by
    intro j2
    induction j2 with
    | zero => intro m; rfl
    | succ j2 ih =>
      intro m
      rw [bootstrapIter, prepareData_fixpoint _ coll1 m hone, Option.some_bind]
      exact ih m
  refine ⟨coll1, n1, ?_, ?_⟩
  · rw [bootstrapIter, hrun, Option.some_bind]
    exact hfix j n1
  · have hcong : ∀ d ∈ coll1, vortexMatchB d = matchesFilter d (seedFilter vortexF) := by
      intro d hd
      rcases hmem d hd with hfalse | ⟨s, hs, idt, rfl⟩
      · simp at hfalse
      · have hs3 : s = vortexF ∨ s = frankenstein ∨ s = blackCat := by
          simpa [startDataFrontend] using hs
        rcases hs3 with rfl | rfl | rfl
        · rw [seedDoc_matches_self]
          rfl
        · rw [seedDoc_no_match_of_name_ne idt frankenstein vortexF (by decide)]
          rfl
        · rw [seedDoc_no_match_of_name_ne idt blackCat vortexF (by decide)]
          rfl
    calc vortexCount coll1
        = coll1.countP (fun d => matchesFilter d (seedFilter vortexF)) :=
          List.countP_congr (fun x hx => by rw [hcong x hx])
      _ = seedCount vortexF coll1 := by
          rw [seedCount, findAll, List.countP_eq_length_filter]
      _ = 1 := hone vortexF (by simp [startDataFrontend])

/-- Witness for C7 at two restarts. -/
theorem vortex_seed_unique_same_service_witness :
    (1 ≤ 2 ∧ 2 ≤ 10) ∧
    (∃ coll2 n2, bootstrapIter startDataFrontend 2 ([], 0) = some (coll2, n2) ∧
      vortexCount coll2 = 1) :=
  ⟨by decide, vortex_seed_unique_same_service 2 0 (by decide) (by decide)⟩

/-- C8: a PUT whose identifier fails to parse as an ObjectID discards the
parse error, proceeds with the zero key, matches and updates no record
(the collection has only storage-assigned, non-zero keys), and still
returns the submitted payload with a success status. -/
theorem put_invalid_id_silent_noop (coll : List Doc) (dto : BookDTO)
    (hparse : oidFromHex dto.Id = none)
    (hids : ∀ d ∈ coll, docGet d "_id" ≠ some (BVal.oid 0)) :
    putBooksHandler coll (some dto) = (coll, 200, some dto) := by
  have hupd : updateOne coll [("_id", BVal.oid 0)] (putSetFields dto) = (coll, 0) := by
    apply updateOne_of_no_match
    intro d hd
    simp [matchesFilter, matchesPair, hids d hd]
  simp [putBooksHandler, hparse, hupd]

/-- Witness for C8 on a malformed identifier. -/
theorem put_invalid_id_silent_noop_witness :
    putBooksHandler [bookToDoc 4 "A" "B" "C" 1 2]
      (some ⟨"nothex", "N", "A", 3, 4, "I"⟩) =
      ([bookToDoc 4 "A" "B" "C" 1 2], 200, some ⟨"nothex", "N", "A", 3, 4, "I"⟩) :=
  put_invalid_id_silent_noop [bookToDoc 4 "A" "B" "C" 1 2]
    ⟨"nothex", "N", "A", 3, 4, "I"⟩ (by decide) (by decide)

/-- C9: the GET handler leaves the collection unchanged and returns one
response object per stored record, in storage order, each carrying the
identifier of the record rendered as its hexadecimal display string
together with the decoded name, author, ISBN, page count and year. -/
theorem get_books_projection (coll : List Doc) :
    getBooksHandler coll = (coll, 200, coll.map dtoOfDoc) := by
  simp [getBooksHandler, findAllBooks, dtoOfDoc, List.map_map]

/-- C10: on every input, bind failure or perceived duplicate or failed or
successful insert, the POST handler leaves every prior record unchanged in
place and appends at most one new record. -/
theorem post_preserves_existing_records (coll : List Doc) (input : Option PostBookDTO)
    (insertOk : Bool) (newId : Nat) :
    (postBooksHandler coll input insertOk newId).1 = coll ∨
    ∃ d, (postBooksHandler coll input insertOk newId).1 = coll ++ [d] := by
  cases input with
  | none => left; rfl
  | some book =>
    cases h : findOne coll (postFilter book) with
    | some d => left; simp [postBooksHandler, h]
    | none =>
      cases insertOk with
      | false => left; simp [postBooksHandler, h]
      | true =>
        right
        exact ⟨bookToDoc newId book.Name book.Author book.Isbn book.Pages book.Year,
          by simp [postBooksHandler, h]⟩

end BooksApp
